import Mathlib

/-!
# Verification of the argo-rs concurrency and lifecycle core

Shallow embedding of the token lifecycle manager
(`src/core/token_manager.rs`, `src/core/credentials.rs`), the UI scheduler
loop and its background tasks (`src/tui/app.rs`), and the self-update
orchestrator (`src/core/update.rs`, `src/core/update_checker.rs`).

Machine time is embedded as `Int` seconds since the epoch
(`chrono::DateTime<Utc>` in the source).  Network and filesystem effects
are passed in as explicit oracle values; keyring state is threaded
explicitly.
-/

deriving instance DecidableEq for Except

namespace Argo

/-! ## Token data and expiry checks
(`src/github/auth.rs` `OAuthTokenData`, `src/core/credentials.rs`) -/

/-- `OAuthTokenData`: access and refresh credentials with their expiry
timestamps, in seconds since the epoch. -/
structure OAuthTokenData where
  access_token : String
  refresh_token : String
  expires_at : Int
  refresh_token_expires_at : Int
deriving Repr, DecidableEq

/-- `CredentialStore::is_token_expired`: true when the token expires within
the 5-minute buffer.  Source: `Utc::now() + Duration::minutes(5) > token_data.expires_at`,
i.e. `now + 300 > expires_at` in seconds. -/
def is_token_expired (now : Int) (td : OAuthTokenData) : Bool :=
  now + 300 > td.expires_at

/-- `CredentialStore::is_refresh_token_expired`:
`Utc::now() > token_data.refresh_token_expires_at`. -/
def is_refresh_token_expired (now : Int) (td : OAuthTokenData) : Bool :=
  now > td.refresh_token_expires_at

/-- The error variants of `GhrustError` (`src/error.rs`) reachable from the
token manager. -/
inductive TMError
  | NotAuthenticated
  | TokenRefreshExpired
  | TokenRefreshFailed (reason : String)
deriving Repr, DecidableEq

/-- The slice of `CredentialStore` state the token manager reads and writes:
`stored` is the structured token data held in the unified credentials entry
(`get_github_token_data` / `store_github_token_data` /
`delete_github_token_data`); `legacy` is the deprecated plain-token cache
slot consulted by `get_github_token` when no structured data exists. -/
structure CredState where
  stored : Option OAuthTokenData
  legacy : Option String
deriving Repr, DecidableEq

/-- Outcome of a token-manager call: the returned value or error, the
credential-store state left behind, and how many network refresh calls
(`DeviceFlowAuth::refresh_token`) were performed. -/
structure TMResult where
  result : Except TMError String
  state : CredState
  refreshCalls : Nat
deriving Repr, DecidableEq

/-- `TokenManager::refresh_and_get_token` (`src/core/token_manager.rs`
lines 88-131).  The body runs under the process-wide `REFRESH_LOCK`, so
concurrent executions are serialized; one serialized execution is a state
transformer.  `refreshCall` is the network oracle modelling
`DeviceFlowAuth::refresh_token`. -/
def refresh_and_get_token (now : Int)
    (refreshCall : String → Except String OAuthTokenData)
    (s : CredState) : TMResult :=
  match s.stored with
  | some td =>
    -- Double-check after acquiring the lock: another task may have refreshed
    if is_token_expired now td = false then
      ⟨.ok td.access_token, s, 0⟩
    else if is_refresh_token_expired now td = true then
      -- Both tokens expired: delete stored data, fail TokenRefreshExpired
      ⟨.error .TokenRefreshExpired, { s with stored := none }, 0⟩
    else if td.refresh_token = "" then
      -- No refresh credential: delete stored data, fail TokenRefreshExpired
      ⟨.error .TokenRefreshExpired, { s with stored := none }, 0⟩
    else
      match refreshCall td.refresh_token with
      | .ok newTd =>
        ⟨.ok newTd.access_token, { s with stored := some newTd }, 1⟩
      | .error e =>
        -- Refresh failed: clear invalid tokens
        ⟨.error (.TokenRefreshFailed e), { s with stored := none }, 1⟩
  | none => ⟨.error .NotAuthenticated, s, 0⟩

/-- The environment-variable gate of `get_valid_token`:
`std::env::var("GITHUB_TOKEN")` succeeding with a non-empty value.
`env = none` models an unset variable; `env = some t` a variable set to `t`. -/
def env_override (env : Option String) : Option String :=
  match env with
  | some t => if t = "" then none else some t
  | none => none

/-- `TokenManager::get_valid_token` (`src/core/token_manager.rs` lines 50-77):
priority env var, then stored structured data (refreshing when expired),
then legacy plain token, else `NotAuthenticated`. -/
def get_valid_token (env : Option String) (now : Int)
    (refreshCall : String → Except String OAuthTokenData)
    (s : CredState) : TMResult :=
  match env_override env with
  | some t => ⟨.ok t, s, 0⟩
  | none =>
    match s.stored with
    | some td =>
      if is_token_expired now td = false then
        ⟨.ok td.access_token, s, 0⟩
      else
        refresh_and_get_token now refreshCall s
    | none =>
      match s.legacy with
      | some t => ⟨.ok t, s, 0⟩
      | none => ⟨.error .NotAuthenticated, s, 0⟩

/-- `n` consecutive lock-serialized executions of the refresh critical
section against the shared credential store, collecting every caller's
result and the total number of network refresh calls.  This models `n`
concurrent callers of `refresh_and_get_token`: the `REFRESH_LOCK` mutex
admits them one at a time, each seeing the store state its predecessor
left. -/
def runRefreshSeq (now : Int)
    (refreshCall : String → Except String OAuthTokenData) :
    Nat → CredState → List (Except TMError String) × CredState × Nat
  | 0, s => ([], s, 0)
  | n + 1, s =>
    let r := refresh_and_get_token now refreshCall s
    let rest := runRefreshSeq now refreshCall n r.state
    (r.result :: rest.1, rest.2.1, r.refreshCalls + rest.2.2)

/-! ## UI scheduler loop (`src/tui/app.rs` `App::run`, lines 628-669)

One iteration of the main loop does, in this order:
1. `terminal.draw(..)` — render a frame from the current state;
2. `while let Ok(msg) = self.async_rx.try_recv()` — drain every currently
   queued `AsyncMessage`, applying each with `handle_async_message`;
3. `events.next().await` — handle at most one input event.

The embedding is polymorphic in the UI state `σ`, the message type `μ` and
the input-event type `ι`; `frames` records the state each rendered frame
was drawn from, oldest first. -/

/-- State carried across loop iterations: the channel's queued messages in
arrival order, the app state, and the states the frames so far were
rendered from. -/
structure LoopState (μ σ : Type) where
  queue : List μ
  app : σ
  frames : List σ
deriving Repr, DecidableEq

/-- One iteration of `App::run`'s loop.  `handleMsg` is
`handle_async_message`; `handleInput` covers the key/resize/tick arm;
`inp` is the at-most-one event returned by `events.next().await`;
`arrivals` are the messages that reach the channel after this iteration's
drain observed it (they are seen by the next iteration). -/
def run_tick {μ σ ι : Type} (handleMsg : σ → μ → σ) (handleInput : σ → ι → σ)
    (arrivals : List μ) (inp : Option ι) (s : LoopState μ σ) : LoopState μ σ :=
  let renderedFrom := s.app
  let afterDrain := s.queue.foldl handleMsg s.app
  let afterInput :=
    match inp with
    | some i => handleInput afterDrain i
    | none => afterDrain
  { queue := arrivals, app := afterInput, frames := s.frames ++ [renderedFrom] }

/-! ## Background task outcome messages (`src/tui/app.rs`)

Each `tokio::spawn`ed task runs its fallible body to an
`Except`-style result and then sends messages on the bus.  The payload
types are reduced to simple carriers; only the variant structure and the
number of sends per path matter here. -/

/-- The `AsyncMessage` variants sent by `fetch_pr_list` and
`fetch_pr_comments`.  PR and comment payloads are reduced to strings,
the per-comment reaction map to association pairs. -/
inductive AsyncMessage
  | PrListLoaded (prs : List String)
  | PrListError (err : String)
  | PrCommentsLoaded (comments : List String)
  | CommentReactionsLoaded (reactions : List (Nat × Nat))
  | PrCommentsError (err : String)
deriving Repr, DecidableEq

/-- The messages the task spawned by `App::fetch_pr_list`
(lines 1040-1057) sends for a given result of its body, in send order. -/
def fetch_pr_list_task (result : Except String (List String)) :
    List AsyncMessage :=
  match result with
  | .ok prs => [.PrListLoaded prs]
  | .error e => [.PrListError e]

/-- The messages the task spawned by `App::fetch_pr_comments`
(lines 1112-1141) sends for a given result of its body, in send order.
On success the source sends `PrCommentsLoaded` and then
`CommentReactionsLoaded`. -/
def fetch_pr_comments_task
    (result : Except String (List String × List (Nat × Nat))) :
    List AsyncMessage :=
  match result with
  | .ok payload => [.PrCommentsLoaded payload.1, .CommentReactionsLoaded payload.2]
  | .error e => [.PrCommentsError e]

/-- Whether a message is an error variant. -/
def AsyncMessage.isErrorVariant : AsyncMessage → Bool
  | .PrListError _ => true
  | .PrCommentsError _ => true
  | _ => false

/-! ## Update checkpoint (`src/core/update.rs` `UpdatePersistentState`)

`last_check` is `Option<String>` in the source, parsed with
`DateTime::parse_from_rfc3339` at use sites; here the outer `Option` is
absence of the field and the inner `Option` is the parse result
(`some t` = parses to epoch second `t`, `none` = unparseable string).
The `partial_download` flag of the source is named `download_incomplete`
here. -/
structure UpdatePersistentState where
  last_check : Option (Option Int)
  pending_update_path : Option String
  pending_version : Option String
  pending_sha256 : Option String
  download_incomplete : Bool
deriving Repr, DecidableEq

/-- `UpdatePersistentState::clear_pending`: drop the pending artifact path,
version, digest and the in-progress-download flag. -/
def clear_pending (st : UpdatePersistentState) : UpdatePersistentState :=
  { st with
    pending_update_path := none
    pending_version := none
    pending_sha256 := none
    download_incomplete := false }

/-- `UpdatePersistentState::has_pending_update`. -/
def has_pending_update (st : UpdatePersistentState) : Bool :=
  st.pending_update_path.isSome && st.pending_version.isSome &&
    st.pending_sha256.isSome && !st.download_incomplete

/-- `chrono::Duration::num_hours` applied to a whole-second duration:
integer division by 3600 truncating toward zero (Rust `i64` division). -/
def chrono_num_hours (secs : Int) : Int :=
  Int.tdiv secs 3600

/-- `UpdatePersistentState::should_check` (lines 95-106): check is allowed
when no last-check timestamp is recorded, or it does not parse, or at
least one whole hour has elapsed since it. -/
def should_check (now : Int) (st : UpdatePersistentState) : Bool :=
  match st.last_check with
  | none => true
  | some none => true
  | some (some t) => chrono_num_hours (now - t) ≥ 1

/-! ## Applying a pending update
(`src/core/update_checker.rs` `apply_pending_update`, lines 341-440) -/

/-- Filesystem and process oracle for one `apply_pending_update` run:
whether the pending artifact exists, the SHA-256 the artifact hashes to,
and whether each effectful step succeeds.  `verify` is the outcome of
`verify_binary` on the installed binary (error carries the reason). -/
structure ApplyEnv where
  pending_exists : Bool
  actual_sha256 : String
  backup_ok : Bool
  rename_ok : Bool
  verify : Except String Unit
  restore_ok : Bool
deriving Repr, DecidableEq

/-- The distinct error outcomes of `apply_pending_update`.  In the source
all are `GhrustError::Custom` with distinguishing messages; the
constructors here mirror those messages:
`Sha256Mismatch` = "Update verification failed - SHA256 mismatch",
`BackupFailed` = a propagated `fs::copy` error,
`ApplyFailed` = "Failed to apply update: ..",
`RolledBack r` = "Update verification failed - rolled back .." with the
verification reason `r`,
`CriticalRollbackFailed r` = "CRITICAL: Update failed and rollback
failed!" carrying the verification reason `r`. -/
inductive ApplyError
  | Sha256Mismatch
  | BackupFailed
  | ApplyFailed
  | RolledBack (verify_reason : String)
  | CriticalRollbackFailed (verify_reason : String)
deriving Repr, DecidableEq

/-- Outcome of `apply_pending_update`: the returned value, the checkpoint
state persisted on disk afterwards, and the filesystem effects performed:
whether the pending artifact file was deleted, whether the staged binary
replaced the current binary and remained there on return, and whether the
backup was restored over the current binary. -/
structure ApplyResult where
  result : Except ApplyError Bool
  state : UpdatePersistentState
  artifact_deleted : Bool
  installed : Bool
  backup_restored : Bool
deriving Repr, DecidableEq

/-- `apply_pending_update` (lines 341-440).  Returns `ok false` when there
is nothing to apply, `ok true` when an update was applied and verified.
Mirrors the source's order of checks: pending path+digest present,
partial-download flag, file existence, SHA-256, backup copy, rename,
post-install `verify_binary`, rollback. -/
def apply_pending_update (st : UpdatePersistentState) (env : ApplyEnv) :
    ApplyResult :=
  match st.pending_update_path, st.pending_sha256 with
  | some _, some sha =>
    if st.download_incomplete then
      ⟨.ok false, st, false, false, false⟩
    else if env.pending_exists = false then
      -- Stale checkpoint pointing at a missing file: clear it
      ⟨.ok false, clear_pending st, false, false, false⟩
    else if env.actual_sha256 ≠ sha then
      -- Hash mismatch: delete the artifact, clear the checkpoint, fail
      ⟨.error .Sha256Mismatch, clear_pending st, true, false, false⟩
    else if env.backup_ok = false then
      -- fs::copy to the backup path failed; error propagates via `?`
      ⟨.error .BackupFailed, st, false, false, false⟩
    else if env.rename_ok = false then
      -- Replacing the binary failed: best-effort restore, then error
      ⟨.error .ApplyFailed, st, false, false, env.restore_ok⟩
    else
      match env.verify with
      | .ok _ =>
        -- Self-test passed: delete backup, clear checkpoint, applied
        ⟨.ok true, clear_pending st, false, true, false⟩
      | .error reason =>
        if env.restore_ok then
          -- Rolled back; checkpoint cleared, reason reported
          ⟨.error (.RolledBack reason), clear_pending st, false, false, true⟩
        else
          -- Restore failed: return the critical error before any
          -- checkpoint write (the source returns inside this branch)
          ⟨.error (.CriticalRollbackFailed reason), st, false, true, false⟩
  | _, _ => ⟨.ok false, st, false, false, false⟩

/-! ## Screen navigation (`src/tui/app.rs` `App::navigate_to`, lines 2503-2558) -/

/-- The `Screen` enum (lines 151-161). -/
inductive Screen
  | Dashboard
  | PrList
  | PrDetail (number : Nat)
  | PrCreate
  | Commit
  | Tags
  | Settings
  | Auth
  | WorkflowRuns
deriving Repr, DecidableEq

/-- The slice of `App` state that `navigate_to` and the fetch helpers it
calls read and write.  `has_repository` is `self.repository.is_some()`;
the loading flags guard each fetch helper against double dispatch. -/
structure NavState where
  navigation_stack : List Screen
  current_screen : Screen
  has_repository : Bool
  pr_list_fetched : Bool
  pr_list_loading : Bool
  pr_detail_loading : Bool
  pr_comments_loading : Bool
  pr_create_loading : Bool
  workflow_runs_fetched : Bool
  workflow_runs_loading : Bool
  tags_fetched : Bool
  tags_loading : Bool
deriving Repr, DecidableEq

/-- The background fetches `navigate_to` can dispatch. -/
inductive FetchAction
  | FetchPrList
  | FetchPrDetail (number : Nat)
  | FetchPrComments (number : Nat)
  | RefreshChangedFiles
  | FetchBranches
  | FetchWorkflowRuns
  | FetchTags
deriving Repr, DecidableEq

/-- `App::fetch_pr_list` (lines 1024-1058): returns early when already
loading or without a repository, else marks loading and spawns. -/
def fetch_pr_list (s : NavState) : NavState × List FetchAction :=
  if s.pr_list_loading then (s, [])
  else if s.has_repository = false then (s, [])
  else ({ s with pr_list_loading := true }, [.FetchPrList])

/-- `App::fetch_pr_detail` (lines 1061-1093). -/
def fetch_pr_detail (s : NavState) (number : Nat) :
    NavState × List FetchAction :=
  if s.pr_detail_loading then (s, [])
  else if s.has_repository = false then (s, [])
  else ({ s with pr_detail_loading := true }, [.FetchPrDetail number])

/-- `App::fetch_pr_comments` (lines 1096-1142). -/
def fetch_pr_comments (s : NavState) (number : Nat) :
    NavState × List FetchAction :=
  if s.pr_comments_loading then (s, [])
  else if s.has_repository = false then (s, [])
  else ({ s with pr_comments_loading := true }, [.FetchPrComments number])

/-- `App::fetch_branches` (lines 2596 onward): guarded by
`pr_create_loading` and the repository context. -/
def fetch_branches (s : NavState) : NavState × List FetchAction :=
  if s.pr_create_loading then (s, [])
  else if s.has_repository = false then (s, [])
  else ({ s with pr_create_loading := true }, [.FetchBranches])

/-- `App::fetch_workflow_runs` via `fetch_workflow_runs_impl`
(lines 1374-1395): guarded by the loading flag and repository context. -/
def fetch_workflow_runs (s : NavState) : NavState × List FetchAction :=
  if s.workflow_runs_loading then (s, [])
  else if s.has_repository = false then (s, [])
  else ({ s with workflow_runs_loading := true }, [.FetchWorkflowRuns])

/-- `App::fetch_tags` (lines 3072 onward). -/
def fetch_tags (s : NavState) : NavState × List FetchAction :=
  if s.tags_loading then (s, [])
  else if s.has_repository = false then (s, [])
  else ({ s with tags_loading := true }, [.FetchTags])

/-- `App::navigate_to` (lines 2503-2558): push the current screen, set the
new one, then trigger the destination screen's fetches.  `PrList` and
`Tags` fetch only when not yet fetched and not loading; `PrDetail` always
dispatches detail and comments fetches; `WorkflowRuns` always clears its
fetched flag and refetches; `Commit` refreshes changed files
synchronously; `PrCreate` initializes the form and fetches branches.
Not modelled: clearing transient comment/form fields, the status message,
and the workflow-runs poll timer and branch filter. -/
def navigate_to (s : NavState) (screen : Screen) :
    NavState × List FetchAction :=
  let s1 : NavState :=
    { s with
      navigation_stack := s.navigation_stack ++ [s.current_screen]
      current_screen := screen }
  match screen with
  | .PrList =>
    if s1.pr_list_fetched = false ∧ s1.pr_list_loading = false then
      fetch_pr_list s1
    else (s1, [])
  | .PrDetail number =>
    let r1 := fetch_pr_detail s1 number
    let r2 := fetch_pr_comments r1.1 number
    (r2.1, r1.2 ++ r2.2)
  | .Commit => (s1, [.RefreshChangedFiles])
  | .PrCreate => fetch_branches s1
  | .WorkflowRuns =>
    fetch_workflow_runs { s1 with workflow_runs_fetched := false }
  | .Tags =>
    if s1.tags_fetched = false ∧ s1.tags_loading = false then
      fetch_tags s1
    else (s1, [])
  | _ => (s1, [])

/-! ## Background update check trigger
(`src/tui/app.rs` `App::spawn_update_check`, lines 3327-3383) -/

/-- The in-memory `UpdateState` enum (`src/core/update.rs` lines 17-34).
The `Downloading(f32)` progress payload is not modelled. -/
inductive UpdateUiState
  | Idle
  | Checking
  | UpToDate
  | Available (version : String)
  | Downloading
  | Ready (version : String)
  | Failed
deriving Repr, DecidableEq

/-- `App::spawn_update_check`: given the session flag
`update_check_triggered`, the loaded persistent state and the current UI
update state, returns (network check task spawned?, new session flag, new
UI update state).  When throttled it spawns nothing and only surfaces an
already-pending update as `Ready`. -/
def spawn_update_check (now : Int) (update_check_triggered : Bool)
    (pstate : UpdatePersistentState) (ui : UpdateUiState) :
    Bool × Bool × UpdateUiState :=
  if update_check_triggered then (false, update_check_triggered, ui)
  else if should_check now pstate = false then
    if has_pending_update pstate then
      match pstate.pending_version with
      | some v => (false, update_check_triggered, .Ready v)
      | none => (false, update_check_triggered, ui)
    else (false, update_check_triggered, ui)
  else (true, true, .Checking)

/-! ## Theorems -/

/-- C2 counterexample: with the override variable set (to the empty
string) and valid stored Token Data, `get_valid_token` returns the stored
access token rather than the override value — the stored data IS
consulted, contradicting the claim that a set override is always returned
as-is. -/
theorem C2_counterexample :
    (get_valid_token (some "") 0 (fun _ => .error "refused")
        ⟨some ⟨"stored_access", "r", 100000, 200000⟩, none⟩).result =
      .ok "stored_access" ∧
    ("" : String) ≠ "stored_access" := by
  decide

/-- C2 (amended): with the override variable set to a NON-EMPTY value,
`get_valid_token` returns that value as-is: the credential-store state is
untouched and no refresh call is made, regardless of stored Token Data. -/
theorem C2_env_override_wins (t : String) (now : Int)
    (rc : String → Except String OAuthTokenData) (s : CredState)
    (h : t ≠ "") :
    get_valid_token (some t) now rc s = ⟨.ok t, s, 0⟩ := by
  simp [get_valid_token, env_override, h]

/-- C2 witness: a concrete non-empty override is returned unchanged. -/
theorem C2_env_override_wins_witness :
    get_valid_token (some "tok") 0 (fun _ => .error "refused")
        ⟨some ⟨"stored_access", "r", 0, 0⟩, none⟩ =
      ⟨.ok "tok", ⟨some ⟨"stored_access", "r", 0, 0⟩, none⟩, 0⟩ :=
  C2_env_override_wins "tok" 0 (fun _ => .error "refused")
    ⟨some ⟨"stored_access", "r", 0, 0⟩, none⟩ (by decide)

/-- C3: the validity test uses a 5-minute (300-second) buffer.  A stored
credential expiring in exactly 5 minutes and 1 second is valid and
returned directly by `get_valid_token`; one expiring in 4 minutes 59
seconds counts as expired and sends `get_valid_token` into the refresh
path (`refresh_and_get_token`). -/
theorem C3_expiry_buffer (now : Int) (td : OAuthTokenData)
    (rc : String → Except String OAuthTokenData) (s : CredState)
    (hs : s.stored = some td) :
    (td.expires_at = now + 301 →
      is_token_expired now td = false ∧
      get_valid_token none now rc s = ⟨.ok td.access_token, s, 0⟩) ∧
    (td.expires_at = now + 299 →
      is_token_expired now td = true ∧
      get_valid_token none now rc s = refresh_and_get_token now rc s) := by
  constructor
  · intro h
    have hexp : is_token_expired now td = false := by
      simp only [is_token_expired, h, decide_eq_false_iff_not]
      omega
    exact ⟨hexp, by simp [get_valid_token, env_override, hs, hexp]⟩
  · intro h
    have hexp : is_token_expired now td = true := by
      simp only [is_token_expired, h, decide_eq_true_eq]
      omega
    exact ⟨hexp, by simp [get_valid_token, env_override, hs, hexp]⟩

/-- C3 witness: a concrete token expiring 301 seconds from now is
returned directly. -/
theorem C3_expiry_buffer_witness :
    get_valid_token none 0 (fun _ => .error "refused")
        ⟨some ⟨"acc", "r", 301, 1000⟩, none⟩ =
      ⟨.ok "acc", ⟨some ⟨"acc", "r", 301, 1000⟩, none⟩, 0⟩ :=
  ((C3_expiry_buffer 0 ⟨"acc", "r", 301, 1000⟩ (fun _ => .error "refused")
      ⟨some ⟨"acc", "r", 301, 1000⟩, none⟩ rfl).1 rfl).2

/-- C4: whenever the refresh path fails terminally — `TokenRefreshExpired`
(refresh credential expired or empty) or `TokenRefreshFailed` (network
refresh failed) — the stored Token Data has been deleted by the time the
error is returned. -/
theorem C4_terminal_failure_deletes_stored (now : Int)
    (rc : String → Except String OAuthTokenData) (s : CredState)
    (h : (refresh_and_get_token now rc s).result = .error .TokenRefreshExpired ∨
      ∃ m, (refresh_and_get_token now rc s).result =
        .error (.TokenRefreshFailed m)) :
    (refresh_and_get_token now rc s).state.stored = none := by
  obtain ⟨stored, legacy⟩ := s
  cases stored with
  | none => simp [refresh_and_get_token] at h
  | some td =>
    by_cases h1 : is_token_expired now td = false
    · simp [refresh_and_get_token, h1] at h
    · by_cases h2 : is_refresh_token_expired now td = true
      · simp [refresh_and_get_token, h1, h2]
      · by_cases h3 : td.refresh_token = ""
        · simp [refresh_and_get_token, h1, h2, h3]
        · cases hrc : rc td.refresh_token with
          | ok newTd => simp [refresh_and_get_token, h1, h2, h3, hrc] at h
          | error e => simp [refresh_and_get_token, h1, h2, h3, hrc]

/-- C4 witness: a stored record whose access token is expired and whose
refresh credential is empty yields `TokenRefreshExpired` with no stored
Token Data left. -/
theorem C4_terminal_failure_deletes_stored_witness :
    ((refresh_and_get_token 0 (fun _ => .error "refused")
        ⟨some ⟨"acc", "", 0, 2000⟩, none⟩).result =
      .error .TokenRefreshExpired ∨
      ∃ m, (refresh_and_get_token 0 (fun _ => .error "refused")
          ⟨some ⟨"acc", "", 0, 2000⟩, none⟩).result =
        .error (.TokenRefreshFailed m)) ∧
    (refresh_and_get_token 0 (fun _ => .error "refused")
        ⟨some ⟨"acc", "", 0, 2000⟩, none⟩).state.stored = none :=
  ⟨Or.inl rfl,
    C4_terminal_failure_deletes_stored 0 (fun _ => .error "refused")
      ⟨some ⟨"acc", "", 0, 2000⟩, none⟩ (Or.inl rfl)⟩

/-- Helper for C1: once the store holds a non-expired token, every further
serialized execution of the refresh critical section returns it at the
double-check, with no network refresh call and no state change. -/
theorem runRefreshSeq_steady (now : Int)
    (rc : String → Except String OAuthTokenData) (newTd : OAuthTokenData)
    (s : CredState) (hs : s.stored = some newTd)
    (hv : is_token_expired now newTd = false) (n : Nat) :
    runRefreshSeq now rc n s =
      (List.replicate n (.ok newTd.access_token), s, 0) := by
  induction n with
  | zero => rfl
  | succ n ih =>
    have hr : refresh_and_get_token now rc s = ⟨.ok newTd.access_token, s, 0⟩ := by
      simp [refresh_and_get_token, hs, hv]
    simp only [runRefreshSeq, hr, ih, List.replicate_succ]

/-- C1: the refresh critical section is guarded by the process-wide
`REFRESH_LOCK`, so N concurrent callers execute it one after another; we
model the N serialized executions.  Starting from an expired stored access
credential with a usable refresh credential and a refresh call that
returns a fresh (non-expired) token, N+1 callers perform exactly one
network refresh between them, every caller receives the same refreshed
access credential, and the refreshed record is what remains stored: the
first caller refreshes, all later callers are stopped by the
re-check of the stored Token Data after acquiring the lock. -/
theorem C1_refresh_mutual_exclusion (now : Int)
    (rc : String → Except String OAuthTokenData) (s : CredState)
    (td newTd : OAuthTokenData)
    (hs : s.stored = some td)
    (hexp : is_token_expired now td = true)
    (href : is_refresh_token_expired now td = false)
    (hne : td.refresh_token ≠ "")
    (hrc : rc td.refresh_token = .ok newTd)
    (hnew : is_token_expired now newTd = false)
    (n : Nat) :
    runRefreshSeq now rc (n + 1) s =
      (List.replicate (n + 1) (.ok newTd.access_token),
        { s with stored := some newTd }, 1) := by
  have hr : refresh_and_get_token now rc s =
      ⟨.ok newTd.access_token, { s with stored := some newTd }, 1⟩ := by
    simp [refresh_and_get_token, hs, hexp, href, hne, hrc]
  have hsteady := runRefreshSeq_steady now rc newTd
    { s with stored := some newTd } rfl hnew n
  simp only [runRefreshSeq, hr, hsteady, List.replicate_succ]

/-- C1 witness: three callers race on an expired token; one refresh call
happens and all three get the refreshed credential. -/
theorem C1_refresh_mutual_exclusion_witness :
    runRefreshSeq 0 (fun _ => .ok ⟨"new", "r1", 9000, 9000⟩) 3
        ⟨some ⟨"old", "r0", 0, 5000⟩, none⟩ =
      (List.replicate 3 (.ok "new"),
        ⟨some ⟨"new", "r1", 9000, 9000⟩, none⟩, 1) :=
  C1_refresh_mutual_exclusion 0 (fun _ => .ok ⟨"new", "r1", 9000, 9000⟩)
    ⟨some ⟨"old", "r0", 0, 5000⟩, none⟩ ⟨"old", "r0", 0, 5000⟩
    ⟨"new", "r1", 9000, 9000⟩ rfl (by decide) (by decide) (by decide) rfl
    (by decide) 2

/-- C5 counterexample: `App::run` renders BEFORE draining the message
channel (`terminal.draw` precedes the `try_recv` loop), so the frame of
the tick that drains 5 queued messages is drawn from the pre-drain state.
Concretely, with counter state 0 and messages `[1,2,3,4,5]` applied by
addition, the tick applies all five (state becomes 15) but the frame
rendered on that same tick shows 0, not 15 — refuting the claim that a
tick's frame reflects every message received before that tick. -/
theorem C5_counterexample :
    (run_tick Nat.add (fun s _ => s) [] (none : Option Unit)
        ⟨[1, 2, 3, 4, 5], 0, []⟩).app = 15 ∧
    (run_tick Nat.add (fun s _ => s) [] (none : Option Unit)
        ⟨[1, 2, 3, 4, 5], 0, []⟩).frames = [0] ∧
    (0 : Nat) ≠ 15 := by
  decide

/-- C5 (amended): each loop iteration renders first, then drains all
currently queued Outcome Messages applying them in receive order, then
processes at most one input event.  All queued messages are applied
exactly once on the draining tick (the queue empties, only later arrivals
remain), the tick's frame is drawn from the pre-drain state, and the next
tick's frame reflects every drained message; no message is applied twice
across two ticks. -/
theorem C5_drain_after_render {μ σ ι : Type} (hm : σ → μ → σ)
    (hi : σ → ι → σ) (s : LoopState μ σ) (arr1 arr2 : List μ) :
    (run_tick hm hi arr1 (none : Option ι) s).app =
      s.queue.foldl hm s.app ∧
    (run_tick hm hi arr1 (none : Option ι) s).queue = arr1 ∧
    (run_tick hm hi arr1 (none : Option ι) s).frames =
      s.frames ++ [s.app] ∧
    (run_tick hm hi arr2 (none : Option ι)
        (run_tick hm hi arr1 (none : Option ι) s)).app =
      arr1.foldl hm (s.queue.foldl hm s.app) ∧
    (run_tick hm hi arr2 (none : Option ι)
        (run_tick hm hi arr1 (none : Option ι) s)).frames =
      s.frames ++ [s.app, s.queue.foldl hm s.app] := by
  refine ⟨rfl, rfl, rfl, rfl, ?_⟩
  simp [run_tick]

/-- C6 counterexample: the task dispatched by `fetch_pr_comments` sends
TWO Outcome Messages on its success path (`PrCommentsLoaded` then
`CommentReactionsLoaded`), refuting "never more than one". -/
theorem C6_counterexample :
    (fetch_pr_comments_task (.ok ([], []))).length = 2 ∧ (2 : Nat) ≠ 1 := by
  decide

/-- C6 (amended): every execution path of the dispatched tasks sends at
least one Outcome Message and failures are sent as error-variant messages,
never raised; `fetch_pr_list`'s task sends exactly one message on every
path, while `fetch_pr_comments`'s task sends exactly one on failure but
two on success. -/
theorem C6_task_message_counts :
    (∀ r, (fetch_pr_list_task r).length = 1) ∧
    (∀ e, fetch_pr_list_task (.error e) = [.PrListError e]) ∧
    (∀ e, (AsyncMessage.PrListError e).isErrorVariant = true) ∧
    (∀ r, 1 ≤ (fetch_pr_comments_task r).length) ∧
    (∀ p, (fetch_pr_comments_task (.ok p)).length = 2) ∧
    (∀ e, fetch_pr_comments_task (.error e) = [.PrCommentsError e]) ∧
    (∀ e, (AsyncMessage.PrCommentsError e).isErrorVariant = true) := by
  refine ⟨?_, ?_, ?_, ?_, ?_, ?_, ?_⟩ <;> intro x <;>
    first
    | rfl
    | (cases x <;> simp [fetch_pr_list_task, fetch_pr_comments_task])

/-- C7: in `apply_pending_update`, when the self-test on the newly
installed binary fails, the backup is restored over it, the checkpoint's
pending fields are cleared, and `RolledBack` is reported with the
verification reason; and when that restore itself fails, the reported
error is the critical, unrecoverable variant (manual-reinstall message),
returned without clearing the checkpoint. -/
theorem C7_update_rollback (st : UpdatePersistentState) (env : ApplyEnv)
    (p sha reason : String)
    (hpath : st.pending_update_path = some p)
    (hsha : st.pending_sha256 = some sha)
    (hpart : st.download_incomplete = false)
    (hex : env.pending_exists = true)
    (hdig : env.actual_sha256 = sha)
    (hb : env.backup_ok = true)
    (hr : env.rename_ok = true)
    (hv : env.verify = .error reason) :
    (env.restore_ok = true →
      apply_pending_update st env =
        ⟨.error (.RolledBack reason), clear_pending st, false, false, true⟩) ∧
    (env.restore_ok = false →
      apply_pending_update st env =
        ⟨.error (.CriticalRollbackFailed reason), st, false, true, false⟩) := by
  constructor <;> intro h <;>
    simp [apply_pending_update, hpath, hsha, hpart, hex, hdig, hb, hr, hv, h]

/-- C7 witness: a failing self-test with a working restore yields
`RolledBack` with the reason and a cleared checkpoint. -/
theorem C7_update_rollback_witness :
    apply_pending_update ⟨none, some "p", some "1", some "abc", false⟩
        ⟨true, "abc", true, true, .error "bad", true⟩ =
      ⟨.error (.RolledBack "bad"),
        clear_pending ⟨none, some "p", some "1", some "abc", false⟩,
        false, false, true⟩ :=
  (C7_update_rollback ⟨none, some "p", some "1", some "abc", false⟩
      ⟨true, "abc", true, true, .error "bad", true⟩
      "p" "abc" "bad" rfl rfl rfl rfl rfl rfl rfl rfl).1 rfl

/-- C8: when the pending artifact's SHA-256 digest does not match the one
recorded in the checkpoint, `apply_pending_update` deletes the artifact,
clears the checkpoint's pending fields, reports the mismatch without
installing anything, and every subsequent call on the cleared checkpoint
returns the nothing-to-apply result `false` and installs nothing. -/
theorem C8_integrity_mismatch (st : UpdatePersistentState) (env : ApplyEnv)
    (p sha : String)
    (hpath : st.pending_update_path = some p)
    (hsha : st.pending_sha256 = some sha)
    (hpart : st.download_incomplete = false)
    (hex : env.pending_exists = true)
    (hneq : env.actual_sha256 ≠ sha) :
    apply_pending_update st env =
      ⟨.error .Sha256Mismatch, clear_pending st, true, false, false⟩ ∧
    (∀ env2,
      (apply_pending_update (clear_pending st) env2).result = .ok false ∧
      (apply_pending_update (clear_pending st) env2).installed = false) := by
  constructor
  · simp [apply_pending_update, hpath, hsha, hpart, hex, hneq]
  · intro env2
    constructor <;> simp [apply_pending_update, clear_pending]

/-- C8 witness: after a digest mismatch clears the checkpoint, a retry
reports nothing to apply. -/
theorem C8_integrity_mismatch_witness :
    (apply_pending_update
        (clear_pending ⟨none, some "p", some "1", some "abc", false⟩)
        ⟨true, "xyz", true, true, .ok (), true⟩).result = .ok false :=
  ((C8_integrity_mismatch ⟨none, some "p", some "1", some "abc", false⟩
      ⟨true, "xyz", true, true, .ok (), true⟩ "p" "abc"
      rfl rfl rfl rfl (by decide)).2
    ⟨true, "xyz", true, true, .ok (), true⟩).1

/-- C9 counterexample: with the workflow-runs data already loaded
(`workflow_runs_fetched = true`, nothing loading, repository present) and
no forcing involved, `navigate_to(WorkflowRuns)` still dispatches a
re-fetch — the source comment says "Always refetch when entering" —
refuting the claim that re-navigating to an already-loaded screen never
re-fetches unless explicitly forced. -/
theorem C9_counterexample :
    (⟨[], .Dashboard, true, false, false, false, false, false,
        true, false, false, false⟩ : NavState).workflow_runs_fetched = true ∧
    (navigate_to
        ⟨[], .Dashboard, true, false, false, false, false, false,
          true, false, false, false⟩ Screen.WorkflowRuns).2 =
      [.FetchWorkflowRuns] ∧
    ([FetchAction.FetchWorkflowRuns] : List FetchAction) ≠ [] := by
  decide

/-- C9 (amended): `navigate_to(screen)` pushes the current screen onto the
history stack and makes `screen` active, for every screen.  The triggered
fetch is idempotent for the PrList and Tags screens: no fetch is
dispatched when their data is already loaded or a fetch is already in
flight.  The PrDetail screen re-fetches detail and comments on every
entry (whenever no such fetch is already in flight and a repository
context exists), and the WorkflowRuns screen clears its fetched flag and
re-fetches on every entry (when not already loading and a repository
context exists). -/
theorem C9_navigate_push_and_guards (s : NavState) (screen : Screen)
    (number : Nat) :
    ((navigate_to s screen).1.navigation_stack =
        s.navigation_stack ++ [s.current_screen] ∧
      (navigate_to s screen).1.current_screen = screen) ∧
    (s.pr_list_fetched = true → (navigate_to s .PrList).2 = []) ∧
    (s.pr_list_loading = true → (navigate_to s .PrList).2 = []) ∧
    (s.tags_fetched = true → (navigate_to s .Tags).2 = []) ∧
    (s.tags_loading = true → (navigate_to s .Tags).2 = []) ∧
    (s.pr_detail_loading = false → s.pr_comments_loading = false →
      s.has_repository = true →
      (navigate_to s (.PrDetail number)).2 =
        [.FetchPrDetail number, .FetchPrComments number]) ∧
    (s.workflow_runs_loading = false → s.has_repository = true →
      (navigate_to s .WorkflowRuns).2 = [.FetchWorkflowRuns] ∧
      (navigate_to s .WorkflowRuns).1.workflow_runs_fetched = false) := by
  refine ⟨?_, ?_, ?_, ?_, ?_, ?_, ?_⟩
  · cases screen <;>
      simp only [navigate_to, fetch_pr_list, fetch_pr_detail,
        fetch_pr_comments, fetch_branches, fetch_workflow_runs,
        fetch_tags] <;>
      (try split_ifs) <;> simp
  · intro h
    simp [navigate_to, h]
  · intro h
    simp [navigate_to, h]
  · intro h
    simp [navigate_to, h]
  · intro h
    simp [navigate_to, h]
  · intro h1 h2 h3
    simp [navigate_to, fetch_pr_detail, fetch_pr_comments, h1, h2, h3]
  · intro h1 h2
    simp [navigate_to, fetch_workflow_runs, h1, h2]

/-- C9 witness: with nothing in flight and a repository context, a
concrete navigation to PR detail 7 dispatches the detail and comments
fetches; navigating to Tags with tags already fetched dispatches
nothing. -/
theorem C9_navigate_push_and_guards_witness :
    (navigate_to
        ⟨[], .Dashboard, true, false, false, false, false, false,
          false, false, true, false⟩ (.PrDetail 7)).2 =
      [.FetchPrDetail 7, .FetchPrComments 7] ∧
    (navigate_to
        ⟨[], .Dashboard, true, false, false, false, false, false,
          false, false, true, false⟩ .Tags).2 = [] :=
  ⟨(C9_navigate_push_and_guards
      ⟨[], .Dashboard, true, false, false, false, false, false,
        false, false, true, false⟩ (.PrDetail 7) 7).2.2.2.2.2.1
      rfl rfl rfl,
    (C9_navigate_push_and_guards
      ⟨[], .Dashboard, true, false, false, false, false, false,
        false, false, true, false⟩ .Tags 7).2.2.2.1 rfl⟩

/-- C10: update checks are throttled to one per hour.  A last-check
timestamp that parses and is less than one hour old makes `should_check`
return false, in which case `spawn_update_check` spawns no network check
task, leaves the session flag unset, and at most surfaces an
already-pending update as `Ready`; a missing or unparseable timestamp
always permits a check. -/
theorem C10_update_check_throttle (now t : Int)
    (st : UpdatePersistentState) (ui : UpdateUiState) :
    (st.last_check = some (some t) → 0 ≤ now - t → now - t < 3600 →
      should_check now st = false ∧
      (spawn_update_check now false st ui).1 = false ∧
      (spawn_update_check now false st ui).2.1 = false ∧
      ((spawn_update_check now false st ui).2.2 = ui ∨
        (has_pending_update st = true ∧
          ∃ v, st.pending_version = some v ∧
            (spawn_update_check now false st ui).2.2 = .Ready v))) ∧
    (st.last_check = none → should_check now st = true) ∧
    (st.last_check = some none → should_check now st = true) := by
  refine ⟨?_, ?_, ?_⟩
  · intro hl h0 h1
    have hzero : chrono_num_hours (now - t) = 0 := by
      obtain ⟨n, hn⟩ := Int.eq_ofNat_of_zero_le h0
      have hn2 : n < 3600 := by
        rw [hn] at h1
        exact_mod_cast h1
      simp only [chrono_num_hours, hn]
      rw [show ((3600 : Int)) = ((3600 : Nat) : Int) from rfl,
        ← Int.ofNat_tdiv]
      simp [Nat.div_eq_of_lt hn2]
    have hsc : should_check now st = false := by
      simp [should_check, hl, hzero]
    by_cases hp : has_pending_update st = true
    · cases hpv : st.pending_version with
      | some v =>
        refine ⟨hsc, ?_, ?_, Or.inr ⟨hp, v, rfl, ?_⟩⟩ <;>
          simp [spawn_update_check, hsc, hp, hpv]
      | none =>
        refine ⟨hsc, ?_, ?_, Or.inl ?_⟩ <;>
          simp [spawn_update_check, hsc, hp, hpv]
    · refine ⟨hsc, ?_, ?_, Or.inl ?_⟩ <;>
        simp [spawn_update_check, hsc, hp]
  · intro h
    simp [should_check, h]
  · intro h
    simp [should_check, h]

/-- C10 witness: a last check 1000 seconds ago suppresses the check. -/
theorem C10_update_check_throttle_witness :
    should_check 1000 ⟨some (some 0), none, none, none, false⟩ = false :=
  ((C10_update_check_throttle 1000 0
      ⟨some (some 0), none, none, none, false⟩ .Idle).1
    rfl (by decide) (by decide)).1

end Argo
